import Mathlib

/-
A shallow embedding of `src/index.js` of the msvc-code-analysis-action
repository, together with theorems settling a set of claims about its
behaviour (C1-C10, named in the doc comments below).

Strings from the JavaScript side are modelled as Lean `String`
(sequences of characters; every string appearing here is ASCII, for which
JavaScript's UTF-16 code-unit order and Lean's code-point order agree).
Character-level algorithms work on `List Char` via `String.data`.

The source file begins with a `"use strict"` directive, so an assignment to
an undeclared identifier or a read of an unbound identifier throws a
`ReferenceError` at run time.  Several functions of the file hit such an
error on every call; the embedding models those functions as returning the
corresponding error value, with a comment pointing at the offending line.
-/

/-! ## Generic string / list helpers (modelling the JS runtime primitives) -/

/-- JavaScript code-unit comparison of two character lists (the semantics of
`<` and `>` on JS strings).  A proper prefix is smaller. -/
def charListLt : List Char → List Char → Bool
  | [], [] => false
  | [], _ :: _ => true
  | _ :: _, [] => false
  | a :: as, b :: bs =>
    if Nat.blt a.toNat b.toNat then true
    else if Nat.blt b.toNat a.toNat then false
    else charListLt as bs

/-- JavaScript `a < b` on strings. -/
def jsStrLt (a b : String) : Bool := charListLt a.data b.data

/-- Bool-valued list prefix test (mirrors `String.prototype.startsWith`
after converting to character lists). -/
def listPrefixB : List Char → List Char → Bool
  | [], _ => true
  | _ :: _, [] => false
  | a :: as, b :: bs => (a == b) && listPrefixB as bs

/-- JavaScript `s.startsWith(pre)`. -/
def strStartsWith (s pre : String) : Bool := listPrefixB pre.data s.data

/-- JavaScript `s.endsWith(suffix)`: the reversed suffix is a prefix of the
reversed string. -/
def strEndsWith (s suffix : String) : Bool :=
  listPrefixB suffix.data.reverse s.data.reverse

/-- Association lookup by string key, first match wins (the semantics of
reading a property of a JS object built by repeated assignment, and of the
lookup tables modelling the filesystem). -/
def assocFind {α : Type} (m : List (String × α)) (k : String) : Option α :=
  match m with
  | [] => none
  | (k2, v) :: rest => if k2 == k then some v else assocFind rest k

/-- JS object property assignment `m[k] = v`: overwrite in place when the key
exists, append otherwise (insertion order is preserved, as in V8). -/
def objSet (m : List (String × String)) (k v : String) : List (String × String) :=
  match m with
  | [] => [(k, v)]
  | (k2, v2) :: rest => if k2 == k then (k2, v) :: rest else (k2, v2) :: objSet rest k v

/-- Node `path.join(a, b)` for the separator-free relative components used in
this code base: concatenation with a `/` separator. -/
def joinPath (a b : String) : String := a ++ ("/") ++ b

/-- Helper for `basename`: scan the characters, restarting the accumulator at
every path separator. -/
def basenameChars : List Char → List Char → List Char
  | [], acc => acc.reverse
  | c :: rest, acc =>
    if c == ('/') || c == ('\\') then basenameChars rest []
    else basenameChars rest (c :: acc)

/-- Node `path.basename` for the paths appearing here (no trailing
separators): the component after the last `/` or `\`.  On the bare
filenames returned by `readdirSync` it is the identity. -/
def basename (s : String) : String := ⟨basenameChars s.data []⟩

/-! ## escapeArgument (src/index.js lines 16-29)

```
function escapeArgument(arg) {
  var i = 0;
  while (i < arg.length && arg[arg.length - 1 - i] == '\\') { i++; }
  if (i > 0) { arg += new Array(i + 1).join('\\'); }
  return '"' + arg + '"';
}
```
`new Array(i + 1).join('\\')` is a string of `i` backslashes. -/

/-- Number of leading backslashes of a character list. -/
def countLeadingBS : List Char → Nat
  | [] => 0
  | c :: rest => if c == ('\\') then countLeadingBS rest + 1 else 0

/-- Number of consecutive trailing backslashes, exactly as the `while` loop
of `escapeArgument` counts them (scanning from the end). -/
def trailingBackslashCount (arg : List Char) : Nat := countLeadingBS arg.reverse

/-- `escapeArgument`, on the argument's characters. -/
def escapeArgument (arg : List Char) : List Char :=
  let i := trailingBackslashCount arg
  ('"') :: ((arg ++ List.replicate i ('\\')) ++ [('"')])

theorem countLeadingBS_replicate (k : Nat) (l : List Char) :
    countLeadingBS (List.replicate k ('\\') ++ l) = k + countLeadingBS l := by
  induction k with
  | zero => simp
  | succ n ih =>
    simp only [List.replicate, List.cons_append, countLeadingBS, ih]
    simp
    omega

theorem trailingBackslashCount_append_replicate (s : List Char) (k : Nat) :
    trailingBackslashCount (s ++ List.replicate k ('\\'))
      = trailingBackslashCount s + k := by
  unfold trailingBackslashCount
  rw [List.reverse_append, List.reverse_replicate, countLeadingBS_replicate]
  omega

/-- Claim C1: for every argument ending in exactly `k` trailing backslashes
(that is, whose trailing-backslash count is `k`), `escapeArgument` wraps the
argument in double quotes with the trailing separators doubled: the result is
an opening quote, the argument followed by `k` further backslashes (hence
exactly `2 * k` separators immediately before the closing quote), and a
closing quote; for `k = 0` the result is just the argument between the two
quotes. -/
theorem escapeArgument_trailing (arg : List Char) (k : Nat)
    (h : trailingBackslashCount arg = k) :
    escapeArgument arg = ('"') :: ((arg ++ List.replicate k ('\\')) ++ [('"')])
    ∧ trailingBackslashCount (arg ++ List.replicate k ('\\')) = 2 * k
    ∧ (k = 0 → escapeArgument arg = ('"') :: (arg ++ [('"')])) := by
  refine ⟨?_, ?_, ?_⟩
  · simp [escapeArgument, h]
  · rw [trailingBackslashCount_append_replicate, h]
    omega
  · intro hk
    subst hk
    simp [escapeArgument, h]

/-- Witness for C1 at the concrete argument `a\\` (two trailing backslashes). -/
theorem escapeArgument_trailing_witness :
    escapeArgument (('a') :: ('\\') :: [('\\')])
        = ('"') :: ((((('a') :: ('\\') :: [('\\')]) ++ List.replicate 2 ('\\'))) ++ [('"')])
    ∧ trailingBackslashCount ((('a') :: ('\\') :: [('\\')]) ++ List.replicate 2 ('\\')) = 2 * 2
    ∧ (2 = 0 → escapeArgument (('a') :: ('\\') :: [('\\')])
        = ('"') :: ((('a') :: ('\\') :: [('\\')]) ++ [('"')])) :=
  escapeArgument_trailing (('a') :: ('\\') :: [('\\')]) 2 (by decide)

/-! ## Data model of the CMake File API documents

The metadata is assumed well-formed for the supported schema versions (the
system is explicitly not a JSON validator); dynamic field accesses that the
code performs on a document of the wrong kind are modelled as `TypeError`s,
exactly as the JS property chain would throw. -/

/-- Errors thrown by the JS code, by site. -/
inductive JsErr where
  | replyNotFound (p : String)
  | replyParseFailure (p : String)
  | readdirFailure (p : String)
  | indexNotFound
  | typeError (msg : String)
  | referenceError (msg : String)
  | unknownResponseKind (k : String)
  | cacheNotLoaded
  | codemodelNotLoaded
  | noSupportedCompiler
  | unsupportedVersion
  | emptyBuildRoot
  | buildRootNotFound (p : String)
  | apiDirNotFound
  | cmakeNotFound (p : String)
  | mkdirFailure (p : String)
  | notLoaded
  deriving DecidableEq

/-- One `{kind, jsonFile}` element of the index's response list. -/
structure QueryResponse where
  kind : String
  jsonFile : String
  deriving DecidableEq

/-- The parts of a reply index document the code reads:
`version.string`, `paths.cmake`, and
`reply["client-msvc-ca-action"]["query.json"].responses` (absent when the
client's query was never answered). -/
structure IndexDoc where
  versionString : String
  cmakePath : String
  clientResponses : Option (List QueryResponse)
  deriving DecidableEq

/-- One typed cache entry of a cache reply (`name`, `value`, `type`). -/
structure CacheEntry where
  name : String
  value : String
  type : String
  deriving DecidableEq

/-- A cache reply document: its `entries` array. -/
structure CacheDoc where
  entries : List CacheEntry
  deriving DecidableEq

/-- A `{jsonFile}` target reference of the codemodel. -/
structure TargetRef where
  jsonFile : String
  deriving DecidableEq

/-- One element of `configurations` of a codemodel reply. -/
structure ConfigEntry where
  targets : List TargetRef
  deriving DecidableEq

/-- A codemodel reply document: `configurations` and `paths.source`. -/
structure CodemodelDoc where
  configurations : List ConfigEntry
  sourcePath : String
  deriving DecidableEq

/-- The `compiler` object of a toolchain entry. -/
structure CompilerDesc where
  id : String
  path : String
  version : String
  includeDirectories : List String
  deriving DecidableEq

/-- One element of `toolchains` of a toolchains reply. -/
structure ToolchainEntry where
  language : String
  compiler : CompilerDesc
  deriving DecidableEq

/-- A toolchains reply document. -/
structure ToolchainsDoc where
  toolchains : List ToolchainEntry
  deriving DecidableEq

/-- A `{fragment}` element of `compileCommandFragments`. -/
structure CommandFragment where
  fragment : String
  deriving DecidableEq

/-- A `{path}` element of `includes` of a compile group. -/
structure IncludeItem where
  path : String
  deriving DecidableEq

/-- A `{define}` element of `defines` of a compile group. -/
structure DefineItem where
  define : String
  deriving DecidableEq

/-- A compile group of a per-target document. -/
structure CompileGroup where
  language : String
  compileCommandFragments : List CommandFragment
  includes : List IncludeItem
  defines : List DefineItem
  sourceIndexes : List Nat
  deriving DecidableEq

/-- A `{path}` element of `sources` of a per-target document. -/
structure SourceEntry where
  path : String
  deriving DecidableEq

/-- A per-target reply document. -/
structure TargetDoc where
  compileGroups : List CompileGroup
  sources : List SourceEntry
  deriving DecidableEq

/-- A parsed reply JSON document (the post-`JSON.parse` value of a reply
file, classified by schema kind). -/
inductive ReplyDoc where
  | index (d : IndexDoc)
  | cacheDoc (d : CacheDoc)
  | codemodel (d : CodemodelDoc)
  | toolchains (d : ToolchainsDoc)
  | target (d : TargetDoc)
  deriving DecidableEq

/-- Resolved compiler information (`path`, `version`, `includes`), one per
language. -/
structure CompilerInfo where
  path : String
  version : String
  includes : List String
  deriving DecidableEq

/-- A synthesized compile command. -/
structure CompileCommand where
  source : String
  arguments : String
  compiler : CompilerInfo
  deriving DecidableEq

/-- The options record passed to the iterator (`useExternalIncludes`). -/
structure AnalyzeOptions where
  useExternalIncludes : Bool
  deriving DecidableEq

/-! ## Cache Model loader (src/index.js lines 178-185)

```
_loadCache(cacheJsonFile) {
  const data = this._parseReplyFile(cacheJsonFile);
  // ignore entry type and just store name and string-value pair.
  for (const entry of data.entries) { this.cache[entry.name] = entry.value; }
}
```
The pure core: fold the entries over the object-assignment `objSet`. -/

/-- The entry loop of `_loadCache`, starting from the session's current
cache object (`{}` on a fresh session). -/
def loadCacheEntries (init : List (String × String)) (entries : List CacheEntry) :
    List (String × String) :=
  entries.foldl (fun m e => objSet m e.name e.value) init

theorem assocFind_objSet (m : List (String × String)) (k v q : String) :
    assocFind (objSet m k v) q = if k == q then some v else assocFind m q := by
  induction m with
  | nil =>
    simp [objSet, assocFind]
  | cons p rest ih =>
    obtain ⟨k2, v2⟩ := p
    by_cases h : k2 == k
    · have hk : k2 = k := by simpa using h
      subst hk
      by_cases hq : k2 == q <;> simp [objSet, assocFind, h, hq]
    · by_cases h2 : k2 == q
      · have hk2 : k2 = q := by simpa using h2
        subst hk2
        have hkq : (k == k2) = false := by
          cases hkk : k == k2 with
          | false => rfl
          | true =>
            have : k = k2 := by simpa using hkk
            subst this
            simp at h
        have hkq2 : (k2 == k) = false := by simpa using h
        simp [objSet, assocFind, hkq2, h2, hkq, ih]
      · simp [objSet, assocFind, h, h2, ih]

theorem find_first_append {α : Type} (l1 l2 : List α) (p : α → Bool) :
    (l1 ++ l2).find? p =
      match l1.find? p with
      | some x => some x
      | none => l2.find? p := by
  induction l1 with
  | nil => simp
  | cons a rest ih =>
    cases hp : p a <;> simp [List.find?, hp, ih]

/-- The cache lookup after `_loadCache`'s entry loop: the last entry (in
document order) whose name matches wins, and names absent from the entries
fall back to the initial object. -/
theorem assocFind_loadCacheEntries (init : List (String × String))
    (entries : List CacheEntry) (q : String) :
    assocFind (loadCacheEntries init entries) q =
      match entries.reverse.find? (fun e => e.name == q) with
      | some e => some e.value
      | none => assocFind init q := by
  induction entries generalizing init with
  | nil => simp [loadCacheEntries]
  | cons e rest ih =>
    have hstep : loadCacheEntries init (e :: rest)
        = loadCacheEntries (objSet init e.name e.value) rest := rfl
    rw [hstep, ih, List.reverse_cons, find_first_append]
    cases hf : rest.reverse.find? (fun x => x.name == q) with
    | some x => simp
    | none =>
      simp only [List.find?]
      cases he : e.name == q with
      | true => simp [assocFind_objSet, he]
      | false => simp [assocFind_objSet, he]

/-- In a list of cache entries with pairwise distinct names, searching by the
name of a member finds exactly that member. -/
theorem find_by_name_of_nodup (l : List CacheEntry) (e : CacheEntry)
    (hnd : (l.map (fun x => x.name)).Nodup) (he : e ∈ l) :
    l.find? (fun x => x.name == e.name) = some e := by
  induction l with
  | nil => simp at he
  | cons a rest ih =>
    simp only [List.map_cons, List.nodup_cons] at hnd
    rcases List.mem_cons.mp he with rfl | hmem
    · simp [List.find?]
    · have hne : (a.name == e.name) = false := by
        cases hb : a.name == e.name with
        | false => rfl
        | true =>
          have : a.name = e.name := by simpa using hb
          exact absurd (this ▸ List.mem_map_of_mem (fun x => x.name) hmem) hnd.1
      simp [List.find?, hne, ih hnd.2 hmem]

/-- Concrete duplicate-name cache document used for the C6 counterexample:
entries `A = "1"` then `A = "2"`. -/
def dupCacheEntries : List CacheEntry :=
  [⟨("A"), ("1"), ("STRING")⟩, ⟨("A"), ("2"), ("STRING")⟩]

/-- Counterexample to claim C6 as stated: in the duplicate-name document
`[A = "1", A = "2"]` the first entry's name does not map to that entry's
value (the model maps `A` to `"2"`), so "every entry's name maps to exactly
that entry's string value, for all entries" fails for some cache response. -/
theorem cacheModel_per_entry_counterexample :
    ¬ (∀ e ∈ dupCacheEntries,
        assocFind (loadCacheEntries [] dupCacheEntries) e.name = some e.value) := by
  decide

/-- Claim C6 (amended): for cache documents whose entry names are pairwise
distinct — as in the `{A: "1", B: "2"}` round-trip of the claim — loading
maps every entry's name to exactly that entry's string value, and the
declared types are discarded: replacing every entry's type by any string
`ty` leaves the loaded model unchanged.  (With duplicate names the last
entry wins; see the C10 theorem.) -/
theorem cacheModel_distinct_names (entries : List CacheEntry) (ty : String)
    (hnd : (entries.map (fun e => e.name)).Nodup) :
    (∀ e ∈ entries, assocFind (loadCacheEntries [] entries) e.name = some e.value)
    ∧ loadCacheEntries [] (entries.map (fun e => ⟨e.name, e.value, ty⟩))
        = loadCacheEntries [] entries := by
  constructor
  · intro e he
    rw [assocFind_loadCacheEntries]
    have hnd2 : (entries.reverse.map (fun x => x.name)).Nodup := by
      rw [List.map_reverse]
      exact List.nodup_reverse.mpr hnd
    rw [find_by_name_of_nodup entries.reverse e hnd2 (List.mem_reverse.mpr he)]
  · unfold loadCacheEntries
    rw [List.foldl_map]

/-- Witness for the amended C6 at the claim's own round-trip document
`{A: "1", B: "2"}` (with distinct declared types, all discarded). -/
theorem cacheModel_distinct_names_witness :
    (∀ e ∈ [(⟨("A"), ("1"), ("STRING")⟩ : CacheEntry), ⟨("B"), ("2"), ("BOOL")⟩],
        assocFind (loadCacheEntries []
          [(⟨("A"), ("1"), ("STRING")⟩ : CacheEntry), ⟨("B"), ("2"), ("BOOL")⟩]) e.name
          = some e.value)
    ∧ loadCacheEntries []
        (([(⟨("A"), ("1"), ("STRING")⟩ : CacheEntry), ⟨("B"), ("2"), ("BOOL")⟩]).map
          (fun e => ⟨e.name, e.value, ("FILEPATH")⟩))
        = loadCacheEntries []
            [(⟨("A"), ("1"), ("STRING")⟩ : CacheEntry), ⟨("B"), ("2"), ("BOOL")⟩] :=
  cacheModel_distinct_names
    [(⟨("A"), ("1"), ("STRING")⟩ : CacheEntry), ⟨("B"), ("2"), ("BOOL")⟩]
    ("FILEPATH") (by decide)

/-- Claim C10: when a cache response contains two or more entries with the
same name, the loaded model maps that name to the string value of the last
such entry in document order (the first match in the reversed entry list),
and a value is indeed present; no error is raised (loading is total). -/
theorem cacheModel_last_duplicate_wins (entries : List CacheEntry) (q : String)
    (h : 2 ≤ (entries.filter (fun e => e.name == q)).length) :
    assocFind (loadCacheEntries [] entries) q
      = (entries.reverse.find? (fun e => e.name == q)).map (fun e => e.value)
    ∧ (entries.reverse.find? (fun e => e.name == q)).isSome = true := by
  have hsome : (entries.reverse.find? (fun e => e.name == q)).isSome = true := by
    rw [List.find?_isSome]
    have hlen : 0 < (entries.filter (fun e => e.name == q)).length := by omega
    obtain ⟨e, he⟩ := List.exists_mem_of_length_pos hlen
    have := List.mem_filter.mp he
    exact ⟨e, List.mem_reverse.mpr this.1, this.2⟩
  constructor
  · rw [assocFind_loadCacheEntries]
    cases hf : entries.reverse.find? (fun e => e.name == q) with
    | some e => simp
    | none => rw [hf] at hsome; simp at hsome
  · exact hsome

/-- Witness for C10 at the document `[B = "x", B = "y", B = "z"]`. -/
theorem cacheModel_last_duplicate_wins_witness :
    assocFind (loadCacheEntries []
        [(⟨("B"), ("x"), ("STRING")⟩ : CacheEntry), ⟨("B"), ("y"), ("PATH")⟩,
          ⟨("B"), ("z"), ("BOOL")⟩]) ("B")
      = (([(⟨("B"), ("x"), ("STRING")⟩ : CacheEntry), ⟨("B"), ("y"), ("PATH")⟩,
          ⟨("B"), ("z"), ("BOOL")⟩]).reverse.find? (fun e => e.name == ("B"))).map
          (fun e => e.value)
    ∧ (([(⟨("B"), ("x"), ("STRING")⟩ : CacheEntry), ⟨("B"), ("y"), ("PATH")⟩,
          ⟨("B"), ("z"), ("BOOL")⟩]).reverse.find? (fun e => e.name == ("B"))).isSome
        = true :=
  cacheModel_last_duplicate_wins
    [(⟨("B"), ("x"), ("STRING")⟩ : CacheEntry), ⟨("B"), ("y"), ("PATH")⟩,
      ⟨("B"), ("z"), ("BOOL")⟩] ("B") (by decide)

/-! ## Query construction (src/index.js lines 122-148)

```
const queryDataLegacy = { requests: [ {kind: "cache", version: "2"},
                                      {kind: "codemodel", version: "2"} ] };
const queryDataWithToolchains = { requests: [ ... , {kind: "toolchains", version: "1"} ] };
const queryData = cmakeVersion > "3.20.5" ? queryDataLegacy : queryDataWithToolchains;
```
`cmakeVersion` is a raw version string; JavaScript `>` compares strings by
code units (lexicographically), not as dotted numeric versions. -/

/-- One `{kind, version}` request of the query descriptor. -/
structure QueryRequest where
  kind : String
  version : String
  deriving DecidableEq

/-- The request list without toolchains (named `queryDataLegacy` in the
source; it is the one chosen for versions strictly above the threshold). -/
def queryDataLegacy : List QueryRequest :=
  [⟨("cache"), ("2")⟩, ⟨("codemodel"), ("2")⟩]

/-- The request list with toolchains. -/
def queryDataWithToolchains : List QueryRequest :=
  [⟨("cache"), ("2")⟩, ⟨("codemodel"), ("2")⟩, ⟨("toolchains"), ("1")⟩]

/-- The `requests` list of the query descriptor `_createApiQuery` writes,
selected by the JS string comparison `cmakeVersion > "3.20.5"`. -/
def queryData (cmakeVersion : String) : List QueryRequest :=
  if jsStrLt ("3.20.5") cmakeVersion then queryDataLegacy else queryDataWithToolchains

/-- Dotted-numeric version comparison, as the claim words it ("versions
compare as dotted numeric version strings").  This definition follows the
claim's words and does not occur in the source, which compares raw strings;
it exists to be compared against `queryData`. -/
def splitDotSegments : List Char → List Char → List (List Char)
  | [], acc => [acc.reverse]
  | c :: rest, acc =>
    if c == ('.') then acc.reverse :: splitDotSegments rest []
    else splitDotSegments rest (c :: acc)

/-- Decimal value of a digit segment (all version segments here are digits). -/
def digitsToNat : List Char → Nat → Nat
  | [], n => n
  | c :: rest, n => digitsToNat rest (n * 10 + (c.toNat - ('0').toNat))

/-- The numeric components of a dotted version string. -/
def versionNumParts (v : String) : List Nat :=
  (splitDotSegments v.data []).map (fun seg => digitsToNat seg 0)

/-- Lexicographic order on numeric component lists (a shorter prefix is at
most its extensions). -/
def numListLe : List Nat → List Nat → Bool
  | [], _ => true
  | _ :: _, [] => false
  | a :: as, b :: bs =>
    if Nat.blt a b then true
    else if Nat.blt b a then false
    else numListLe as bs

/-- Version `a` is at or below version `b` under the claim's dotted-numeric
comparison. -/
def versionLeNumeric (a b : String) : Bool :=
  numListLe (versionNumParts a) (versionNumParts b)

/-- Counterexample to claim C4 as stated: at detected version `"3.9.0"`
(numerically at or below the threshold `3.20.5`, so the claim requires the
toolchains kind to be requested), the code compares strings, finds
`"3.9.0" > "3.20.5"`, and writes the query without the toolchains kind. -/
theorem apiQuery_numeric_threshold_counterexample :
    ¬ (((⟨("toolchains"), ("1")⟩ : QueryRequest) ∈ queryData ("3.9.0"))
        ↔ versionLeNumeric ("3.9.0") ("3.20.5") = true) := by
  decide

/-- Claim C4 (amended): the query descriptor requests `cache` (v2) and
`codemodel` (v2) unconditionally, and requests `toolchains` (v1) if and only
if the detected version is at or below `"3.20.5"` in JavaScript lexicographic
string order (code-unit comparison), which is how the code compares version
strings. -/
theorem apiQuery_kinds_threshold (v : String) :
    ((⟨("cache"), ("2")⟩ : QueryRequest) ∈ queryData v)
    ∧ ((⟨("codemodel"), ("2")⟩ : QueryRequest) ∈ queryData v)
    ∧ (((⟨("toolchains"), ("1")⟩ : QueryRequest) ∈ queryData v)
        ↔ jsStrLt ("3.20.5") v = false) := by
  unfold queryData
  cases h : jsStrLt ("3.20.5") v <;> decide

/-! ## Filesystem model

`fs.existsSync` / `fs.readFileSync` / `fs.readdirSync` resolve relative
paths against the process working directory (the action runs with the
repository checkout as cwd, not the reply directory).  The model carries
that working directory explicitly, a set of existing paths, the parsed
content of the JSON files, and directory listings (bare names, as
`readdirSync` returns them). -/

/-- Does a path string start with a separator (POSIX-style absolute paths;
all concrete paths in this development are written this way)? -/
def isAbsolutePath (p : String) : Bool :=
  match p.data with
  | [] => false
  | c :: _ => c == ('/')

/-- The state of the filesystem as the Node APIs see it. -/
structure FS where
  cwd : String
  paths : List String
  files : List (String × ReplyDoc)
  dirs : List (String × List String)

/-- Resolution of a (possibly relative) path against the working directory. -/
def resolvePath (fs : FS) (p : String) : String :=
  if isAbsolutePath p then p else joinPath fs.cwd p

/-- `fs.existsSync`. -/
def existsSync (fs : FS) (p : String) : Bool :=
  fs.paths.contains (resolvePath fs p)

/-- `fs.readdirSync`: the bare entry names of a directory; throws when the
directory does not exist. -/
def readdirSync (fs : FS) (p : String) : Except JsErr (List String) :=
  match assocFind fs.dirs (resolvePath fs p) with
  | some names => Except.ok names
  | none => Except.error (JsErr.readdirFailure p)

/-! ## CMakeApi session state -/

/-- The mutable fields of the `CMakeApi` class instance. -/
structure CMakeApi where
  loaded : Bool
  cCompilerInfo : Option CompilerInfo
  cxxCompilerInfo : Option CompilerInfo
  sourceRoot : Option String
  cache : List (String × String)
  targetFilepaths : List String
  deriving DecidableEq

namespace CMakeApi

/-- The constructor's initial state (src/index.js lines 81-90). -/
def init : CMakeApi :=
  { loaded := false, cCompilerInfo := none, cxxCompilerInfo := none,
    sourceRoot := none, cache := [], targetFilepaths := [] }

/-- `CMakeApi.clientName`. -/
def clientName : String := "client-msvc-ca-action"

end CMakeApi

/-- `_parseReplyFile` (src/index.js lines 99-115): empty path and missing
file throw "Failed to find CMake API reply file"; an existing path whose
parsed content is unavailable is a parse failure.  The method reads `this`
not at all, so it is modelled as a plain function of the filesystem. -/
def parseReplyFile (fs : FS) (replyFile : String) : Except JsErr ReplyDoc :=
  if replyFile == ("") then Except.error (JsErr.replyNotFound replyFile)
  else if !(existsSync fs replyFile) then Except.error (JsErr.replyNotFound replyFile)
  else
    match assocFind fs.files (resolvePath fs replyFile) with
    | some d => Except.ok d
    | none => Except.error (JsErr.replyParseFailure replyFile)

/-! ## Index Resolver (src/index.js lines 155-172)

```
_getApiReplyIndex(apiDir) {
  let indexFilepath;
  const replyDir = path.join(apiDir, "reply");
  for (const filepath of fs.readdirSync(replyDir)) {
    if (path.basename(filepath).startsWith("index-")) {
      if (!indexFilepath || filepath > indexFilepath) { indexFilepath = filepath; }
    };
  }
  if (!indexFilepath) { throw new Error("Failed to find CMake API index reply file."); }
  return this._parseReplyFile(indexFilepath);
}
```
Note that `indexFilepath` is a bare directory-entry name and is passed to
`_parseReplyFile` without being joined to `replyDir`, although that method's
own doc comment requires an absolute path. -/

/-- The selection loop over the directory listing: the running maximum (by
the JS string order) of the names whose basename starts with `index-`. -/
def selectIndexFile (names : List String) : Option String :=
  names.foldl
    (fun acc filepath =>
      if strStartsWith (basename filepath) ("index-") then
        match acc with
        | none => some filepath
        | some m => if jsStrLt m filepath then some filepath else some m
      else acc)
    none

/-- `_getApiReplyIndex`. -/
def CMakeApi.getApiReplyIndex (fs : FS) (apiDir : String) : Except JsErr ReplyDoc :=
  match readdirSync fs (joinPath apiDir ("reply")) with
  | Except.error e => Except.error e
  | Except.ok names =>
    match selectIndexFile names with
    | none => Except.error JsErr.indexNotFound
    | some indexFilepath => parseReplyFile fs indexFilepath

/-- A reply directory holding two index files (listed in two different
orders below) and one unrelated file; the process cwd is the repository
checkout `/repo`, not the reply directory. -/
def fsC5 : FS :=
  { cwd := ("/repo"),
    paths := [("/b"), ("/b/.cmake/api/v1"), ("/b/.cmake/api/v1/reply"),
      ("/b/.cmake/api/v1/reply/index-1.json"), ("/b/.cmake/api/v1/reply/index-2.json"),
      ("/b/.cmake/api/v1/reply/cmake-files.json")],
    files := [(("/b/.cmake/api/v1/reply/index-1.json"),
        ReplyDoc.index ⟨("3.21.0"), ("/usr/bin/cmake"), none⟩),
      (("/b/.cmake/api/v1/reply/index-2.json"),
        ReplyDoc.index ⟨("3.21.3"), ("/usr/bin/cmake"), none⟩)],
    dirs := [(("/b/.cmake/api/v1/reply"),
      [("index-1.json"), ("cmake-files.json"), ("index-2.json")])] }

/-- The same filesystem with the directory listing permuted. -/
def fsC5perm : FS :=
  { fsC5 with dirs := [(("/b/.cmake/api/v1/reply"),
      [("index-2.json"), ("index-1.json"), ("cmake-files.json")])] }

/-- The same filesystem with no index file in the listing. -/
def fsC5empty : FS :=
  { fsC5 with dirs := [(("/b/.cmake/api/v1/reply"), [("cmake-files.json")])] }

/-- Claim C5, settled against the code: the selection loop does pick the
lexicographically greatest `index-` name, the same one under a permuted
directory listing, and a listing without a matching name fails with the
index-not-found error; but the resolver then passes the bare filename to
`_parseReplyFile` without joining the reply directory, so the read resolves
against the process working directory and throws "reply file not found"
instead of returning the parsed document of `index-2.json`. -/
theorem replyIndex_selection :
    selectIndexFile [("index-1.json"), ("cmake-files.json"), ("index-2.json")]
        = some ("index-2.json")
    ∧ selectIndexFile [("index-2.json"), ("index-1.json"), ("cmake-files.json")]
        = some ("index-2.json")
    ∧ CMakeApi.getApiReplyIndex fsC5 ("/b/.cmake/api/v1")
        = Except.error (JsErr.replyNotFound ("index-2.json"))
    ∧ CMakeApi.getApiReplyIndex fsC5perm ("/b/.cmake/api/v1")
        = Except.error (JsErr.replyNotFound ("index-2.json"))
    ∧ CMakeApi.getApiReplyIndex fsC5empty ("/b/.cmake/api/v1")
        = Except.error JsErr.indexNotFound := by
  refine ⟨rfl, rfl, rfl, rfl, rfl⟩

/-! ## Toolchain Resolver (src/index.js lines 37-51, 207-258)

The cache fallback guards each language with
`cPath.endsWith("cl.exe") && cPath.endsWith("cl")` — a conjunction no string
satisfies — and, were a path ever accepted,
`extractVersionFromCompilerPath` names its parameter `path`, shadowing the
`path` module, so `path.join(path, "../../..")` would throw a TypeError. -/

/-- `extractVersionFromCompilerPath` (lines 37-40): the parameter shadows
the `path` module, so `path.join(path, "../../..")` reads the `join`
property of a string — `undefined` — and the call throws before anything
else happens. -/
def extractVersionFromCompilerPath (_p : String) : Except JsErr String :=
  Except.error (JsErr.typeError ("path.join is not a function"))

/-- `extractIncludesFromCompilerPath` (lines 47-51): same parameter
shadowing, same TypeError. -/
def extractIncludesFromCompilerPath (_p : String) : Except JsErr (List String) :=
  Except.error (JsErr.typeError ("path.join is not a function"))

/-- The cache fallback's acceptance test for a compiler path, exactly as
written: `cPath.endsWith("cl.exe") && cPath.endsWith("cl")`. -/
def acceptsClPath (p : String) : Bool :=
  strEndsWith p ("cl.exe") && strEndsWith p ("cl")

/-- The acceptance criterion in the spec's words ("accept only compiler
paths whose filename matches the expected executable name", `cl.exe`).
This definition follows the spec, not the source, and exists to be compared
with `acceptsClPath`. -/
def specRecognizedCompiler (p : String) : Bool := basename p == ("cl.exe")

/-- One iteration of the `_loadToolchains` loop over `data.toolchains`
(lines 210-225): a C/MSVC entry overwrites the C slot, a CXX/MSVC entry the
CXX slot. -/
def toolchainStep (acc : Option CompilerInfo × Option CompilerInfo)
    (tc : ToolchainEntry) : Option CompilerInfo × Option CompilerInfo :=
  if tc.language == ("C") && tc.compiler.id == ("MSVC") then
    (some ⟨tc.compiler.path, tc.compiler.version, tc.compiler.includeDirectories⟩, acc.2)
  else if tc.language == ("CXX") && tc.compiler.id == ("MSVC") then
    (acc.1, some ⟨tc.compiler.path, tc.compiler.version, tc.compiler.includeDirectories⟩)
  else acc

/-- The whole `_loadToolchains` loop, from the session's current compiler
slots. -/
def resolveToolchains (init : Option CompilerInfo × Option CompilerInfo)
    (entries : List ToolchainEntry) : Option CompilerInfo × Option CompilerInfo :=
  entries.foldl toolchainStep init

/-- `_loadToolchains` after a successful parse of the toolchains document:
run the loop, then throw `NoSupportedCompiler` when both slots are still
unset. -/
def CMakeApi.loadToolchainsOnDoc (s : CMakeApi) (d : ToolchainsDoc) :
    CMakeApi × Option JsErr :=
  if (resolveToolchains (s.cCompilerInfo, s.cxxCompilerInfo) d.toolchains).1.isNone
      && (resolveToolchains (s.cCompilerInfo, s.cxxCompilerInfo) d.toolchains).2.isNone then
    ({ s with
        cCompilerInfo := (resolveToolchains (s.cCompilerInfo, s.cxxCompilerInfo) d.toolchains).1,
        cxxCompilerInfo := (resolveToolchains (s.cCompilerInfo, s.cxxCompilerInfo) d.toolchains).2 },
      some JsErr.noSupportedCompiler)
  else
    ({ s with
        cCompilerInfo := (resolveToolchains (s.cCompilerInfo, s.cxxCompilerInfo) d.toolchains).1,
        cxxCompilerInfo := (resolveToolchains (s.cCompilerInfo, s.cxxCompilerInfo) d.toolchains).2 },
      none)

/-- `_loadToolchains` (lines 207-230). -/
def CMakeApi.loadToolchains (fs : FS) (s : CMakeApi) (toolsetJsonFile : String) :
    CMakeApi × Option JsErr :=
  match parseReplyFile fs toolsetJsonFile with
  | Except.error e => (s, some e)
  | Except.ok (ReplyDoc.toolchains d) => CMakeApi.loadToolchainsOnDoc s d
  | Except.ok _ => (s, some (JsErr.typeError ("data.toolchains is not iterable")))

/-- The final `if (!this.cCompilerInfo && !this.cxxCompilerInfo)` check of
`_loadToolchainsFromCache` (lines 255-257). -/
def CMakeApi.cacheFinalCheck (s : CMakeApi) : CMakeApi × Option JsErr :=
  if s.cCompilerInfo.isNone && s.cxxCompilerInfo.isNone then
    (s, some JsErr.noSupportedCompiler)
  else (s, none)

/-- The CXX half of `_loadToolchainsFromCache` (lines 246-253): reading
`CMAKE_CXX_COMPILER` (a missing entry gives `undefined`, whose `.endsWith`
throws), the unsatisfiable acceptance test, and — in its dead branch — the
throwing version/include extraction. -/
def CMakeApi.cacheCxxStep (s : CMakeApi) : CMakeApi × Option JsErr :=
  match assocFind s.cache ("CMAKE_CXX_COMPILER") with
  | none => (s, some (JsErr.typeError ("cxxPath is undefined")))
  | some cxxPath =>
    if acceptsClPath cxxPath then
      match extractVersionFromCompilerPath cxxPath with
      | Except.error e => (s, some e)
      | Except.ok v =>
        match extractIncludesFromCompilerPath cxxPath with
        | Except.error e => (s, some e)
        | Except.ok incs =>
          CMakeApi.cacheFinalCheck { s with cxxCompilerInfo := some ⟨cxxPath, v, incs⟩ }
    else CMakeApi.cacheFinalCheck s

/-- `_loadToolchainsFromCache` (lines 236-258). -/
def CMakeApi.loadToolchainsFromCache (s : CMakeApi) : CMakeApi × Option JsErr :=
  match assocFind s.cache ("CMAKE_C_COMPILER") with
  | none => (s, some (JsErr.typeError ("cPath is undefined")))
  | some cPath =>
    if acceptsClPath cPath then
      match extractVersionFromCompilerPath cPath with
      | Except.error e => (s, some e)
      | Except.ok v =>
        match extractIncludesFromCompilerPath cPath with
        | Except.error e => (s, some e)
        | Except.ok incs =>
          CMakeApi.cacheCxxStep { s with cCompilerInfo := some ⟨cPath, v, incs⟩ }
    else CMakeApi.cacheCxxStep s

/-- No string passes `acceptsClPath`: ending in `"cl.exe"` forces the last
character to be `e`, ending in `"cl"` forces it to be `l`. -/
theorem acceptsClPath_false (p : String) : acceptsClPath p = false := by
  unfold acceptsClPath strEndsWith
  have h6 : ("cl.exe" : String).data.reverse
      = ('e') :: ('x') :: ('e') :: ('.') :: ('l') :: [('c')] := by decide
  have h2 : ("cl" : String).data.reverse = ('l') :: [('c')] := by decide
  rw [h6, h2]
  generalize p.data.reverse = r
  cases r with
  | nil => rfl
  | cons a t =>
    cases he : ('e') == a with
    | false => simp [listPrefixB, he]
    | true =>
      have ha : a = ('e') := by
        have : ('e') = a := by simpa using he
        exact this.symm
      subst ha
      simp [listPrefixB]

/-- The C slot after the toolchain loop is unset exactly when it started
unset and no entry of the list is a C/MSVC toolchain. -/
theorem resolveToolchains_fst_none (entries : List ToolchainEntry) :
    ∀ init : Option CompilerInfo × Option CompilerInfo,
      (resolveToolchains init entries).1 = none ↔
        (init.1 = none
          ∧ ∀ tc ∈ entries, ¬ (tc.language = ("C") ∧ tc.compiler.id = ("MSVC"))) := by
  induction entries with
  | nil => intro init; simp [resolveToolchains]
  | cons tc rest ih =>
    intro init
    have hstep : resolveToolchains init (tc :: rest)
        = resolveToolchains (toolchainStep init tc) rest := rfl
    rw [hstep, ih]
    by_cases hC : tc.language = ("C") ∧ tc.compiler.id = ("MSVC")
    · have hb : (tc.language == ("C") && tc.compiler.id == ("MSVC")) = true := by
        simp [hC.1, hC.2]
      simp [toolchainStep, hb, List.forall_mem_cons, hC.1, hC.2]
    · have hb : (tc.language == ("C") && tc.compiler.id == ("MSVC")) = false := by
        cases h1 : tc.language == ("C") <;> cases h2 : tc.compiler.id == ("MSVC") <;>
          simp_all
      by_cases hX : tc.language = ("CXX") ∧ tc.compiler.id = ("MSVC")
      · have hbx : (tc.language == ("CXX") && tc.compiler.id == ("MSVC")) = true := by
          simp [hX.1, hX.2]
        simp only [toolchainStep, hb, hbx, if_true, if_false, Bool.false_eq_true,
          List.forall_mem_cons]
        constructor
        · intro h; exact ⟨h.1, hC, h.2⟩
        · intro h; exact ⟨h.1, h.2.2⟩
      · have hbx : (tc.language == ("CXX") && tc.compiler.id == ("MSVC")) = false := by
          cases h1 : tc.language == ("CXX") <;> cases h2 : tc.compiler.id == ("MSVC") <;>
            simp_all
        simp only [toolchainStep, hb, hbx, if_true, if_false, Bool.false_eq_true,
          List.forall_mem_cons]
        constructor
        · intro h; exact ⟨h.1, hC, h.2⟩
        · intro h; exact ⟨h.1, h.2.2⟩

/-- The CXX slot after the toolchain loop is unset exactly when it started
unset and no entry of the list is a CXX/MSVC toolchain. -/
theorem resolveToolchains_snd_none (entries : List ToolchainEntry) :
    ∀ init : Option CompilerInfo × Option CompilerInfo,
      (resolveToolchains init entries).2 = none ↔
        (init.2 = none
          ∧ ∀ tc ∈ entries, ¬ (tc.language = ("CXX") ∧ tc.compiler.id = ("MSVC"))) := by
  induction entries with
  | nil => intro init; simp [resolveToolchains]
  | cons tc rest ih =>
    intro init
    have hstep : resolveToolchains init (tc :: rest)
        = resolveToolchains (toolchainStep init tc) rest := rfl
    rw [hstep, ih]
    by_cases hX : tc.language = ("CXX") ∧ tc.compiler.id = ("MSVC")
    · have hbx : (tc.language == ("CXX") && tc.compiler.id == ("MSVC")) = true := by
        simp [hX.1, hX.2]
      have hb : (tc.language == ("C") && tc.compiler.id == ("MSVC")) = false := by
        cases h1 : tc.language == ("C") <;> simp_all [hX.1]
      simp [toolchainStep, hb, hbx, List.forall_mem_cons, hX.1, hX.2]
    · by_cases hC : tc.language = ("C") ∧ tc.compiler.id = ("MSVC")
      · have hb : (tc.language == ("C") && tc.compiler.id == ("MSVC")) = true := by
          simp [hC.1, hC.2]
        simp only [toolchainStep, hb, if_true, List.forall_mem_cons]
        constructor
        · intro h; exact ⟨h.1, hX, h.2⟩
        · intro h; exact ⟨h.1, h.2.2⟩
      · have hb : (tc.language == ("C") && tc.compiler.id == ("MSVC")) = false := by
          cases h1 : tc.language == ("C") <;> cases h2 : tc.compiler.id == ("MSVC") <;>
            simp_all
        have hbx : (tc.language == ("CXX") && tc.compiler.id == ("MSVC")) = false := by
          cases h1 : tc.language == ("CXX") <;> cases h2 : tc.compiler.id == ("MSVC") <;>
            simp_all
        simp only [toolchainStep, hb, hbx, if_true, if_false, Bool.false_eq_true,
          List.forall_mem_cons]
        constructor
        · intro h; exact ⟨h.1, hX, h.2⟩
        · intro h; exact ⟨h.1, h.2.2⟩

/-- The path of the spec's own toolchain-fallback example (forward slashes;
its filename is the expected `cl.exe`). -/
def pathC3 : String := "/VS/2019/MSVC/14.29.30133/bin/HostX64/x64/cl.exe"

/-- A session whose cache records the example MSVC compiler for both
languages, as `_loadToolchainsFromCache` would see it. -/
def sC3 : CMakeApi :=
  { CMakeApi.init with
    cache := [(("CMAKE_C_COMPILER"), pathC3), (("CMAKE_CXX_COMPILER"), pathC3)] }

/-- Claim C3, settled against the code: the fallback's acceptance condition
`cPath.endsWith("cl.exe") && cPath.endsWith("cl")` holds for no string at
all, so the spec's example path — whose filename is exactly the expected
`cl.exe` — is rejected for both languages, no `CompilerInfo` is produced
(in particular no version `"14.29.30133"`), and the fallback throws
`NoSupportedCompiler`. -/
theorem cacheToolchain_rejects_all :
    (∀ p : String, acceptsClPath p = false)
    ∧ CMakeApi.loadToolchainsFromCache sC3 = (sC3, some JsErr.noSupportedCompiler)
    ∧ (CMakeApi.loadToolchainsFromCache sC3).1.cCompilerInfo = none
    ∧ specRecognizedCompiler pathC3 = true := by
  refine ⟨acceptsClPath_false, rfl, rfl, rfl⟩

/-- The recognized C++ compiler path of the C8 failing input. -/
def pathC8 : String := "/VS/2022/MSVC/14.30.30705/bin/HostX64/x64/cl.exe"

/-- A session whose cache has an unrecognized C compiler and the recognized
MSVC C++ compiler. -/
def sC8 : CMakeApi :=
  { CMakeApi.init with
    cache := [(("CMAKE_C_COMPILER"), ("/usr/bin/gcc")), (("CMAKE_CXX_COMPILER"), pathC8)] }

/-- Claim C8, settled against the code: on the toolchains-response path the
claimed equivalence does hold — `_loadToolchains` fails with
`NoSupportedCompiler` exactly when the loop leaves both slots unset, i.e.
when no entry is a C/MSVC or CXX/MSVC toolchain.  But on the cache-fallback
path the equivalence fails: in the session `sC8` the C++ compiler is the
recognized `cl.exe`, yet `_loadToolchainsFromCache` still throws
`NoSupportedCompiler`, because its acceptance condition is unsatisfiable. -/
theorem toolchain_no_supported_compiler :
    (∀ (s : CMakeApi) (d : ToolchainsDoc),
      (CMakeApi.loadToolchainsOnDoc s d).2 = some JsErr.noSupportedCompiler ↔
        ((resolveToolchains (s.cCompilerInfo, s.cxxCompilerInfo) d.toolchains).1 = none
          ∧ (resolveToolchains (s.cCompilerInfo, s.cxxCompilerInfo) d.toolchains).2 = none))
    ∧ (∀ entries : List ToolchainEntry,
      resolveToolchains ((none : Option CompilerInfo), (none : Option CompilerInfo)) entries
          = (none, none) ↔
        ((∀ tc ∈ entries, ¬ (tc.language = ("C") ∧ tc.compiler.id = ("MSVC")))
          ∧ (∀ tc ∈ entries, ¬ (tc.language = ("CXX") ∧ tc.compiler.id = ("MSVC")))))
    ∧ CMakeApi.loadToolchainsFromCache sC8 = (sC8, some JsErr.noSupportedCompiler)
    ∧ specRecognizedCompiler pathC8 = true := by
  refine ⟨?_, ?_, rfl, rfl⟩
  · intro s d
    by_cases hb : ((resolveToolchains (s.cCompilerInfo, s.cxxCompilerInfo) d.toolchains).1.isNone
        && (resolveToolchains (s.cCompilerInfo, s.cxxCompilerInfo) d.toolchains).2.isNone) = true
    · simp only [CMakeApi.loadToolchainsOnDoc, hb, if_true]
      simp only [Bool.and_eq_true, Option.isNone_iff_eq_none] at hb
      simp [hb.1, hb.2]
    · simp only [CMakeApi.loadToolchainsOnDoc, hb, if_false]
      simp only [Bool.and_eq_true, Option.isNone_iff_eq_none] at hb
      constructor
      · intro h; exact absurd h (by simp)
      · intro h; exact absurd (And.intro h.1 h.2) (by
          intro hc
          exact hb ⟨hc.1, hc.2⟩)
  · intro entries
    constructor
    · intro h
      have h1 := (resolveToolchains_fst_none entries ((none : Option CompilerInfo), none)).mp
        (by rw [h])
      have h2 := (resolveToolchains_snd_none entries ((none : Option CompilerInfo), none)).mp
        (by rw [h])
      exact ⟨h1.2, h2.2⟩
    · intro h
      have h1 := (resolveToolchains_fst_none entries ((none : Option CompilerInfo), none)).mpr
        ⟨rfl, h.1⟩
      have h2 := (resolveToolchains_snd_none entries ((none : Option CompilerInfo), none)).mpr
        ⟨rfl, h.2⟩
      cases hres : resolveToolchains ((none : Option CompilerInfo), none) entries with
      | mk a b =>
        rw [hres] at h1 h2
        simp only [Prod.mk.injEq]
        exact ⟨h1, h2⟩

/-! ## Session loading (src/index.js lines 122-148, 178-201, 264-300, 347-385)

State-mutating steps return the updated session together with an optional
thrown error; mutations performed before a throw persist (as they do on the
JS object), and `loaded` is assigned only at the very end of `loadApi`. -/

/-- `indexQuery.version.string` on a parsed reply document. -/
def indexVersionString : ReplyDoc → Except JsErr String
  | ReplyDoc.index d => Except.ok d.versionString
  | _ => Except.error (JsErr.typeError ("cannot read string of undefined"))

/-- `indexQuery.paths.cmake` on a parsed reply document. -/
def indexCmakePath : ReplyDoc → Except JsErr String
  | ReplyDoc.index d => Except.ok d.cmakePath
  | _ => Except.error (JsErr.typeError ("cannot read cmake of undefined"))

/-- `indexReply.reply["client-msvc-ca-action"]["query.json"].responses` on a
parsed reply document. -/
def indexResponses : ReplyDoc → Except JsErr (List QueryResponse)
  | ReplyDoc.index d =>
    match d.clientResponses with
    | some rs => Except.ok rs
    | none => Except.error (JsErr.typeError ("cannot read responses of undefined"))
  | _ => Except.error (JsErr.typeError ("cannot read responses of undefined"))

/-- `_loadCache` (lines 178-185): parse, then run the entry loop over the
session's cache object. -/
def CMakeApi.loadCache (fs : FS) (s : CMakeApi) (cacheJsonFile : String) :
    CMakeApi × Option JsErr :=
  match parseReplyFile fs cacheJsonFile with
  | Except.error e => (s, some e)
  | Except.ok (ReplyDoc.cacheDoc d) =>
    ({ s with cache := loadCacheEntries s.cache d.entries }, none)
  | Except.ok _ => (s, some (JsErr.typeError ("data.entries is not iterable")))

/-- `_loadCodemodel` (lines 192-201): configuration index 0 unconditionally,
target json files joined onto the reply directory, source root recorded. -/
def CMakeApi.loadCodemodel (fs : FS) (s : CMakeApi) (replyDir codemodelJsonFile : String) :
    CMakeApi × Option JsErr :=
  match parseReplyFile fs codemodelJsonFile with
  | Except.error e => (s, some e)
  | Except.ok (ReplyDoc.codemodel d) =>
    match d.configurations with
    | [] => (s, some (JsErr.typeError ("cannot read targets of undefined")))
    | cfg :: _ =>
      ({ s with
          targetFilepaths :=
            s.targetFilepaths ++ cfg.targets.map (fun t => joinPath replyDir t.jsonFile),
          sourceRoot := some d.sourcePath }, none)
  | Except.ok _ => (s, some (JsErr.typeError ("cannot read 0 of undefined")))

/-- `_createApiQuery` (lines 122-148).  `fs.mkdirSync(queryDir)` is not
recursive: it throws unless the parent `query` directory exists and the
client directory itself does not.  The descriptor content is
`queryData cmakeVersion` (see above); `fs.writeFile` is asynchronous with a
fire-and-forget callback, so no write error can surface here and the file
is never read back during this load. -/
def CMakeApi.createApiQuery (fs : FS) (apiDir cmakeVersion : String) : Option JsErr :=
  let _requests := queryData cmakeVersion
  if !(existsSync fs (joinPath apiDir ("query"))) then
    some (JsErr.mkdirFailure (joinPath (joinPath apiDir ("query")) CMakeApi.clientName))
  else if existsSync fs (joinPath (joinPath apiDir ("query")) CMakeApi.clientName) then
    some (JsErr.mkdirFailure (joinPath (joinPath apiDir ("query")) CMakeApi.clientName))
  else none

/-- The response loop of `_loadReplyFiles` (lines 270-287): each response is
dispatched on its kind, the per-kind flag is set before the loader runs, an
unknown kind throws. -/
def CMakeApi.processResponses (fs : FS) (replyDir : String) :
    List QueryResponse → CMakeApi → Bool → Bool → Bool →
      CMakeApi × Bool × Bool × Bool × Option JsErr
  | [], s, c, m, t => (s, c, m, t, none)
  | r :: rest, s, c, m, t =>
    if r.kind == ("cache") then
      match CMakeApi.loadCache fs s (joinPath replyDir r.jsonFile) with
      | (s2, none) => CMakeApi.processResponses fs replyDir rest s2 true m t
      | (s2, some e) => (s2, true, m, t, some e)
    else if r.kind == ("codemodel") then
      match CMakeApi.loadCodemodel fs s replyDir (joinPath replyDir r.jsonFile) with
      | (s2, none) => CMakeApi.processResponses fs replyDir rest s2 c true t
      | (s2, some e) => (s2, c, true, t, some e)
    else if r.kind == ("toolchains") then
      match CMakeApi.loadToolchains fs s (joinPath replyDir r.jsonFile) with
      | (s2, none) => CMakeApi.processResponses fs replyDir rest s2 c m true
      | (s2, some e) => (s2, c, m, true, some e)
    else (s, c, m, t, some (JsErr.unknownResponseKind r.kind))

/-- `_loadReplyFiles` (lines 264-300): re-read the index, walk the client's
responses, then require cache and codemodel, and fall back to the cache for
toolchains when no toolchains response was seen. -/
def CMakeApi.loadReplyFiles (fs : FS) (apiDir : String) (s : CMakeApi) :
    CMakeApi × Option JsErr :=
  match CMakeApi.getApiReplyIndex fs apiDir with
  | Except.error e => (s, some e)
  | Except.ok doc =>
    match indexResponses doc with
    | Except.error e => (s, some e)
    | Except.ok rs =>
      match CMakeApi.processResponses fs (joinPath apiDir ("reply")) rs s false false false with
      | (s2, _, _, _, some e) => (s2, some e)
      | (s2, c, m, t, none) =>
        if !c then (s2, some JsErr.cacheNotLoaded)
        else if !m then (s2, some JsErr.codemodelNotLoaded)
        else if !t then CMakeApi.loadToolchainsFromCache s2
        else (s2, none)

/-- Everything `loadApi` (lines 347-385) does before its final
`this.loaded = true`: validations, version gate (JS string comparison
again), query creation, the not-awaited `child_process.spawn`, and reply
loading. -/
def CMakeApi.loadApiSteps (fs : FS) (s : CMakeApi) (buildRoot : String) :
    CMakeApi × Option JsErr :=
  if buildRoot == ("") then (s, some JsErr.emptyBuildRoot)
  else if !(existsSync fs buildRoot) then (s, some (JsErr.buildRootNotFound buildRoot))
  else if !(existsSync fs (joinPath buildRoot (".cmake/api/v1"))) then
    (s, some JsErr.apiDirNotFound)
  else
    match CMakeApi.getApiReplyIndex fs (joinPath buildRoot (".cmake/api/v1")) with
    | Except.error e => (s, some e)
    | Except.ok doc =>
      match indexVersionString doc with
      | Except.error e => (s, some e)
      | Except.ok cmakeVersion =>
        if jsStrLt cmakeVersion ("3.13.7") then (s, some JsErr.unsupportedVersion)
        else
          match indexCmakePath doc with
          | Except.error e => (s, some e)
          | Except.ok cmakePath =>
            if !(existsSync fs cmakePath) then (s, some (JsErr.cmakeNotFound cmakePath))
            else
              match CMakeApi.createApiQuery fs (joinPath buildRoot (".cmake/api/v1"))
                  cmakeVersion with
              | some e => (s, some e)
              | none =>
                CMakeApi.loadReplyFiles fs (joinPath buildRoot (".cmake/api/v1")) s

/-- `loadApi`: the step sequence above, then — only when no step threw —
`this.loaded = true` (line 384). -/
def CMakeApi.loadApi (fs : FS) (s : CMakeApi) (buildRoot : String) :
    CMakeApi × Option JsErr :=
  match CMakeApi.loadApiSteps fs s buildRoot with
  | (s2, some e) => (s2, some e)
  | (s2, none) => ({ s2 with loaded := true }, none)

/-! ## Compile Command Synthesizer (src/index.js lines 308-331)

```
_getCompileGroupArguments(group, options) {
  compileArguments = [];                                   // line 310
  for (const command of group.compileCommandFragments) { ... }
  for (const include of group.includes) { ... escapeArgument(...) ... }
  for (const define of indexReply.reply[CMakeApi.clientName].group.defines) { ... }
  return compileArguments.join("");
}
```
Under the module's `"use strict"`, the very first statement assigns the
undeclared identifier `compileArguments` and throws
`ReferenceError: compileArguments is not defined` before any fragment is
processed.  (Even without the directive the function could not return: the
defines loop reads `indexReply`, which is a local of `_loadReplyFiles` and
is not in scope here, so the property chain throws a TypeError.)  Every
call therefore throws, for every group and option set. -/

/-- `_getCompileGroupArguments`. -/
def CMakeApi.getCompileGroupArguments (_group : CompileGroup) (_options : AnalyzeOptions) :
    Except JsErr String :=
  Except.error (JsErr.referenceError ("compileArguments"))

/-- The compile group of the spec's end-to-end example: fragments `["/W4"]`,
includes `["C:/proj/inc"]`, defines `["DEBUG"]`, one source index. -/
def groupC2 : CompileGroup :=
  { language := ("CXX"),
    compileCommandFragments := [⟨("/W4")⟩],
    includes := [⟨("C:/proj/inc")⟩],
    defines := [⟨("DEBUG")⟩],
    sourceIndexes := [0] }

/-- Claim C2, settled against the code: for the spec's example group with
`f + n + m = 3`, the synthesizer does not produce an argument sequence at
all — it throws the strict-mode `ReferenceError` on its first statement
(and its defines loop reads the out-of-scope `indexReply` rather than
`group.defines`), so no group ever yields the claimed `f + n + m`
arguments. -/
theorem compileGroupArguments_reference_error :
    CMakeApi.getCompileGroupArguments groupC2 ⟨false⟩
        = Except.error (JsErr.referenceError ("compileArguments"))
    ∧ groupC2.compileCommandFragments.length + groupC2.includes.length
        + groupC2.defines.length = 3 := by
  exact ⟨rfl, rfl⟩

/-! ## compileCommandsIterator (src/index.js lines 394-426)

```
* compileCommandsIterator(target, options = {}) {
  if (!this.loaded) { throw new Error("... called before API is loaded"); }
  for (target in this.targetFilepaths) {
    targetData = _parseReplyFile(target);
    ...
  }
}
```
The generator is modelled by the sequence of values it yields (or the first
error it throws) when drained.  `for ... in` over an array enumerates its
index keys, so with an empty target list the body never runs and the
generator finishes yielding nothing; with a non-empty list the first
iteration evaluates the identifier `_parseReplyFile`, which is a method,
not a binding in scope, and throws
`ReferenceError: _parseReplyFile is not defined`. -/

/-- `compileCommandsIterator`, drained. -/
def CMakeApi.compileCommandsIterator (_fs : FS) (s : CMakeApi) (_options : AnalyzeOptions) :
    Except JsErr (List CompileCommand) :=
  if !s.loaded then Except.error JsErr.notLoaded
  else
    match s.targetFilepaths with
    | [] => Except.ok []
    | _ :: _ => Except.error (JsErr.referenceError ("_parseReplyFile"))

/-- A fully and successfully loaded session: flag set, a resolved C++
compiler, a source root, one recorded target document. -/
def sC9 : CMakeApi :=
  { loaded := true,
    cCompilerInfo := none,
    cxxCompilerInfo := some ⟨("/vs/cl.exe"), ("14.29.30133"), [("/vs/include")]⟩,
    sourceRoot := some ("/proj"),
    cache := [],
    targetFilepaths := [("/b/.cmake/api/v1/reply/target-app.json")] }

/-- Claim C9, settled against the code: on a loaded session with a recorded
target and a resolved compiler, the iteration does not yield one
CompileCommand per (group, source index) — it throws a `ReferenceError` on
its first step, because `for...in` walks the array's index keys and the
body reads the unbound identifier `_parseReplyFile` (the method is only
reachable as `this._parseReplyFile`). -/
theorem iterator_reference_error :
    sC9.loaded = true
    ∧ sC9.targetFilepaths.length = 1
    ∧ CMakeApi.compileCommandsIterator ⟨("/repo"), [], [], []⟩ sC9 ⟨false⟩
        = Except.error (JsErr.referenceError ("_parseReplyFile")) := by
  exact ⟨rfl, rfl, rfl⟩

/-! ## The `loaded` flag is written by no load step (claim C7) -/

theorem loadCache_loaded (fs : FS) (s : CMakeApi) (f : String) :
    (CMakeApi.loadCache fs s f).1.loaded = s.loaded := by
  unfold CMakeApi.loadCache
  cases parseReplyFile fs f with
  | error e => rfl
  | ok d => cases d <;> rfl

theorem loadCodemodel_loaded (fs : FS) (s : CMakeApi) (replyDir f : String) :
    (CMakeApi.loadCodemodel fs s replyDir f).1.loaded = s.loaded := by
  unfold CMakeApi.loadCodemodel
  cases parseReplyFile fs f with
  | error e => rfl
  | ok d =>
    cases d with
    | codemodel cd => cases cd with | mk cfgs src => cases cfgs <;> rfl
    | index d2 => rfl
    | cacheDoc d2 => rfl
    | toolchains d2 => rfl
    | target d2 => rfl

theorem loadToolchainsOnDoc_loaded (s : CMakeApi) (d : ToolchainsDoc) :
    (CMakeApi.loadToolchainsOnDoc s d).1.loaded = s.loaded := by
  unfold CMakeApi.loadToolchainsOnDoc
  split <;> rfl

theorem loadToolchains_loaded (fs : FS) (s : CMakeApi) (f : String) :
    (CMakeApi.loadToolchains fs s f).1.loaded = s.loaded := by
  unfold CMakeApi.loadToolchains
  cases parseReplyFile fs f with
  | error e => rfl
  | ok d =>
    cases d with
    | toolchains td => exact loadToolchainsOnDoc_loaded s td
    | index d2 => rfl
    | cacheDoc d2 => rfl
    | codemodel d2 => rfl
    | target d2 => rfl

theorem cacheFinalCheck_loaded (s : CMakeApi) :
    (CMakeApi.cacheFinalCheck s).1.loaded = s.loaded := by
  unfold CMakeApi.cacheFinalCheck
  split <;> rfl

theorem cacheCxxStep_loaded (s : CMakeApi) :
    (CMakeApi.cacheCxxStep s).1.loaded = s.loaded := by
  unfold CMakeApi.cacheCxxStep
  cases assocFind s.cache ("CMAKE_CXX_COMPILER") with
  | none => rfl
  | some cxxPath => simp [acceptsClPath_false, cacheFinalCheck_loaded]

theorem loadToolchainsFromCache_loaded (s : CMakeApi) :
    (CMakeApi.loadToolchainsFromCache s).1.loaded = s.loaded := by
  unfold CMakeApi.loadToolchainsFromCache
  cases assocFind s.cache ("CMAKE_C_COMPILER") with
  | none => rfl
  | some cPath => simp [acceptsClPath_false, cacheCxxStep_loaded]

theorem processResponses_loaded (fs : FS) (replyDir : String) (rs : List QueryResponse) :
    ∀ (s : CMakeApi) (c m t : Bool),
      (CMakeApi.processResponses fs replyDir rs s c m t).1.loaded = s.loaded := by
  induction rs with
  | nil => intro s c m t; rfl
  | cons r rest ih =>
    intro s c m t
    simp only [CMakeApi.processResponses]
    split
    · split
      · next s2 heq =>
        rw [ih]
        have hx := loadCache_loaded fs s (joinPath replyDir r.jsonFile)
        rw [heq] at hx
        exact hx
      · next s2 e heq =>
        have hx := loadCache_loaded fs s (joinPath replyDir r.jsonFile)
        rw [heq] at hx
        exact hx
    · split
      · split
        · next s2 heq =>
          rw [ih]
          have hx := loadCodemodel_loaded fs s replyDir (joinPath replyDir r.jsonFile)
          rw [heq] at hx
          exact hx
        · next s2 e heq =>
          have hx := loadCodemodel_loaded fs s replyDir (joinPath replyDir r.jsonFile)
          rw [heq] at hx
          exact hx
      · split
        · split
          · next s2 heq =>
            rw [ih]
            have hx := loadToolchains_loaded fs s (joinPath replyDir r.jsonFile)
            rw [heq] at hx
            exact hx
          · next s2 e heq =>
            have hx := loadToolchains_loaded fs s (joinPath replyDir r.jsonFile)
            rw [heq] at hx
            exact hx
        · rfl

theorem loadReplyFiles_loaded (fs : FS) (apiDir : String) (s : CMakeApi) :
    (CMakeApi.loadReplyFiles fs apiDir s).1.loaded = s.loaded := by
  unfold CMakeApi.loadReplyFiles
  split
  · rfl
  · split
    · rfl
    · next rs hrs =>
      split
      · next s2 f1 f2 f3 e heq =>
        have hx := processResponses_loaded fs (joinPath apiDir ("reply")) rs s false false false
        rw [heq] at hx
        exact hx
      · next s2 cc mm tt heq =>
        have hx := processResponses_loaded fs (joinPath apiDir ("reply")) rs s false false false
        rw [heq] at hx
        split
        · exact hx
        · split
          · exact hx
          · split
            · rw [loadToolchainsFromCache_loaded]
              exact hx
            · exact hx

theorem loadApiSteps_loaded (fs : FS) (s : CMakeApi) (root : String) :
    (CMakeApi.loadApiSteps fs s root).1.loaded = s.loaded := by
  unfold CMakeApi.loadApiSteps
  split
  · rfl
  · split
    · rfl
    · split
      · rfl
      · split
        · rfl
        · split
          · rfl
          · split
            · rfl
            · split
              · rfl
              · split
                · rfl
                · split
                  · rfl
                  · exact loadReplyFiles_loaded fs (joinPath root (".cmake/api/v1")) s

theorem loadApi_err_loaded (fs : FS) (s : CMakeApi) (root : String)
    (hfail : (CMakeApi.loadApi fs s root).2.isSome = true) :
    (CMakeApi.loadApi fs s root).1.loaded = s.loaded := by
  have hl := loadApiSteps_loaded fs s root
  unfold CMakeApi.loadApi at hfail ⊢
  rcases hsteps : CMakeApi.loadApiSteps fs s root with ⟨s2, oe⟩
  rw [hsteps] at hl hfail
  cases oe with
  | some e => exact hl
  | none => simp at hfail

/-- Claim C7: on a session whose load has not completed successfully — the
`loaded` flag is still false — iterating compile commands fails with the
not-loaded usage error; and whenever `loadApi` fails (for example on a
build directory missing `.cmake/api/v1`, as in the witness below), the
resulting session still has `loaded = false` and its iteration fails with
the same not-loaded error. -/
theorem session_unloaded_gate (fs : FS) (root : String) (s : CMakeApi)
    (h : s.loaded = false)
    (hfail : (CMakeApi.loadApi fs s root).2.isSome = true) :
    CMakeApi.compileCommandsIterator fs s ⟨false⟩ = Except.error JsErr.notLoaded
    ∧ (CMakeApi.loadApi fs s root).1.loaded = false
    ∧ CMakeApi.compileCommandsIterator fs (CMakeApi.loadApi fs s root).1 ⟨false⟩
        = Except.error JsErr.notLoaded := by
  have h2 : (CMakeApi.loadApi fs s root).1.loaded = false := by
    rw [loadApi_err_loaded fs s root hfail]
    exact h
  refine ⟨?_, h2, ?_⟩
  · unfold CMakeApi.compileCommandsIterator
    rw [h]
    rfl
  · unfold CMakeApi.compileCommandsIterator
    rw [h2]
    rfl

/-- A filesystem holding the build root but not its `.cmake/api/v1`
subdirectory. -/
def fsC7 : FS := { cwd := ("/repo"), paths := [("/build")], files := [], dirs := [] }

/-- Witness for C7: the fresh session against a build directory whose
`.cmake/api/v1` is missing. -/
theorem session_unloaded_gate_witness :
    CMakeApi.compileCommandsIterator fsC7 CMakeApi.init ⟨false⟩
        = Except.error JsErr.notLoaded
    ∧ (CMakeApi.loadApi fsC7 CMakeApi.init ("/build")).1.loaded = false
    ∧ CMakeApi.compileCommandsIterator fsC7
        (CMakeApi.loadApi fsC7 CMakeApi.init ("/build")).1 ⟨false⟩
        = Except.error JsErr.notLoaded :=
  session_unloaded_gate fsC7 ("/build") CMakeApi.init rfl rfl
